import Mathlib

set_option maxRecDepth 8192

/-!
# Verification of the TT demoboard pin-control core

Shallow embedding of the pin-topology / pin-direction state machine of
`src/ttboard/pins/pins.py` and the hardware-revision detector of
`src/ttboard/boot/demoboard_detect.py`, together with theorems settling the
frozen claims about them.

Modules `ttboard.pins.gpio_map`, `ttboard.pins.standard`, `ttboard.pins.muxed`,
`ttboard.pins.mux_control` and `ttboard.mode` are referenced by the sources but
are not part of the source tree; wherever a definition stands in for one of
them it is modelled from the specification and marked as such in its doc
comment.
-/

namespace TT

/-- Pin direction, mirroring `machine.Pin.IN` / `machine.Pin.OUT`. -/
inductive PMode where
  | IN
  | OUT
deriving DecidableEq, Repr

/-- Pull configuration, mirroring pull `None` / `Pin.PULL_UP` / `Pin.PULL_DOWN`. -/
inductive Pull where
  | none
  | up
  | down
deriving DecidableEq, Repr

/-- Modelled from the spec: `ttboard.pins.standard.StandardPin` is not under
`src/`.  Per spec section 4.3 (LogicalPin) a pin carries a current mode, a
current pull, and a latched written value: writing buffers the value, reading
an output-mode pin returns the last written value, reading an input-mode pin
samples the line. -/
structure PinState where
  mode : PMode
  pull : Pull
  latch : Bool
deriving DecidableEq, Repr

/-- The facade's named pin registry: the dynamic attributes that
`Pins.begin_inputs_all` creates with `setattr(self, name, p)`. -/
def PinsSt : Type := String → Option PinState

/-- `setattr(self, name, p)`: install (or overwrite) a named pin. -/
def setPin (s : PinsSt) (n : String) (ps : PinState) : PinsSt :=
  fun m => if m = n then some ps else s m

/-- Mutate an existing named pin in place (e.g. `p.mode = Pin.OUT` on the object
obtained from `getattr`); a missing name is modelled as a no-op (in Python a
missing attribute would raise, a case the theorems exclude by hypothesis). -/
def adjustPin (s : PinsSt) (n : String) (f : PinState → PinState) : PinsSt :=
  fun m => if m = n then (s n).map f else s m

/-- Modelled from the spec: reading a pin object (`p()`).  An input-mode pin
samples the electrical line (`e`), an output-mode pin returns the latched
written value (spec section 3, LogicalPin invariant). -/
def pinRead (ps : PinState) (e : Bool) : Bool :=
  match ps.mode with
  | .IN => e
  | .OUT => ps.latch

/-- Read a named pin of the facade; `ext` gives the electrical level each named
line would sample.  A missing name reads as low (the theorems always supply the
name by hypothesis). -/
def pinReadSt (s : PinsSt) (ext : String → Bool) (n : String) : Bool :=
  match s n with
  | some ps => pinRead ps (ext n)
  | none => false

/-- Writing a bit to a named pin (`p(v)`): the value is latched; mode and pull
are untouched (spec section 4.3: writes to an input-mode pin are buffered). -/
def pinWrite (s : PinsSt) (n : String) (v : Bool) : PinsSt :=
  fun m => if m = n then (s n).map (fun ps => { ps with latch := v }) else s m

/-- The mode of a named pin, when the pin exists. -/
def pinModeOf (s : PinsSt) (n : String) : Option PMode :=
  (s n).map (fun ps => ps.mode)

/-- Python's `str.startswith(p)`, as a prefix test on the character list. -/
def startsW (s p : String) : Bool :=
  p.data.isPrefixOf s.data

/-- Modelled from the spec: `ttboard.pins.gpio_map` is not under `src/`.
Per spec section 3 (PinTopology) a topology maps names to physical ids, has an
always-output set, per-name default pulls (falling back to `none`, spec
section 4.1), muxed pairs (shared physical pin name together with its two
logical sub-pin names), a per-operating-mode mode map for the muxed sub-pins
(`GPIOMap.muxed_pinmode_map` in the source's usage), and knows whether the
board uses the mux (`GPIOMap.demoboard_uses_mux`). -/
structure GPIOMap where
  all : List (String × Nat)
  always_outputs : List String
  default_pulls : List (String × Pull)
  muxed_pairs : List (String × String × String)
  pinmode_map : List (Nat × String × PMode)
  uses_mux : Bool
deriving DecidableEq, Repr

/-- The declared pin names (keys of `GPIOMap.all()`). -/
def GPIOMap.keys (g : GPIOMap) : List String :=
  g.all.map Prod.fst

/-- `GPIOMap.default_pull(name)`: the default pull for a name, `none` when
unspecified (spec section 4.1). -/
def GPIOMap.default_pull (g : GPIOMap) (n : String) : Pull :=
  match g.default_pulls.lookup n with
  | some p => p
  | Option.none => Pull.none

/-- The designated direction of a muxed sub-pin in operating mode `m`
(the `modeMap` of `Pins._begin_muxPins`). -/
def GPIOMap.modeFor (g : GPIOMap) (m : Nat) (n : String) : PMode :=
  match (g.pinmode_map.filter (fun t => t.1 = m ∧ t.2.1 = n)).head? with
  | some t => t.2.2
  | Option.none => PMode.IN

/-- All muxed sub-pin names of the topology. -/
def GPIOMap.subNames (g : GPIOMap) : List String :=
  g.muxed_pairs.flatMap (fun t => [t.2.1, t.2.2])

/-- `Pins.muxName`: the special mux-control pin, `'hk_csb'` in the source. -/
def muxName : String := "hk_csb"

/-- Modelled from the spec: `ttboard.mode.RPMode` is not under `src/`; the four
operating modes are integer codes (values chosen here, the source only tests
membership and equality). -/
def RPMode.SAFE : Nat := 0

/-- `RPMode.ASIC_RP_CONTROL` (spec name `ASIC_DRIVEN`). -/
def RPMode.ASIC_RP_CONTROL : Nat := 1

/-- `RPMode.ASIC_MANUAL_INPUTS` (spec name `ASIC_MANUAL`). -/
def RPMode.ASIC_MANUAL_INPUTS : Nat := 2

/-- `RPModeDEVELOPMENT.STANDALONE`. -/
def RPModeDEVELOPMENT.STANDALONE : Nat := 3

/-- Membership of a mode code in the `startupMap` dictionary of the
`Pins.mode` setter (`pins.py` lines 163-170). -/
def validMode (m : Nat) : Bool :=
  (m == RPMode.SAFE) || (m == RPMode.ASIC_RP_CONTROL) ||
  (m == RPMode.ASIC_MANUAL_INPUTS) || (m == RPModeDEVELOPMENT.STANDALONE)

/-- `self.dieOnInputControlSwitchHigh`, set `True` in `Pins.__init__`
(line 135) and never changed in the source. -/
def dieOnInputControlSwitchHigh : Bool := true

/-- The pin `Pins.begin_inputs_all` creates for a declared name
(`pins.py` lines 298-301): direction `OUT` exactly when the name is in
`GPIOMap.always_outputs()`, pull from `GPIOMap.default_pull(name)`; the write
latch starts low. -/
def freshPin (g : GPIOMap) (n : String) : PinState :=
  { mode := if n ∈ g.always_outputs then PMode.OUT else PMode.IN
    pull := g.default_pull n
    latch := false }

/-- `Pins.begin_inputs_all` (`pins.py` lines 291-306): loop over all declared
names, skipping `muxName`, installing a fresh pin for each.  The physical gpio
number passed to `StandardPin` does not affect any tracked pin attribute, so
the fold runs over the key list. -/
def begin_inputs_all (g : GPIOMap) (s : PinsSt) : PinsSt :=
  g.keys.foldl (fun acc n => if n = muxName then acc else setPin acc n (freshPin g n)) s

/-- `Pins._begin_alwaysOut` (`pins.py` lines 388-391): force every name in the
always-output set to output mode. -/
def begin_alwaysOut (g : GPIOMap) (s : PinsSt) : PinsSt :=
  g.always_outputs.foldl (fun acc n => adjustPin acc n (fun ps => { ps with mode := PMode.OUT })) s

/-- One iteration of the contention-guard loop of `Pins.begin_asiconboard`
(`pins.py` lines 333-341): for an `in`-named pin, read it; if it reads high,
leave it as-is and record its name in the warning list, otherwise force it to
output. -/
def asicInStep (ext : String → Bool) (acc : PinsSt × List String) (n : String) :
    PinsSt × List String :=
  if startsW n "in" then
    match acc.1 n with
    | some ps =>
      if dieOnInputControlSwitchHigh then
        if pinRead ps (ext n) then (acc.1, acc.2 ++ [n])
        else (setPin acc.1 n { ps with mode := PMode.OUT }, acc.2)
      else (setPin acc.1 n { ps with mode := PMode.OUT }, acc.2)
    | none => acc
  else acc

/-- The contention-guard loop of `Pins.begin_asiconboard` over all declared
names, threading the `unconfigured_pins` warning list. -/
def asicInPass (g : GPIOMap) (ext : String → Bool) (acc : PinsSt × List String) :
    PinsSt × List String :=
  g.keys.foldl (asicInStep ext) acc

/-- The mode-specific loop of `Pins.begin_standalone` (`pins.py` lines
366-373): `out`-named pins become outputs, `in`-named pins get a pull-down. -/
def standaloneStep (acc : PinsSt) (n : String) : PinsSt :=
  let s1 := if startsW n "out" then adjustPin acc n (fun ps => { ps with mode := PMode.OUT }) else acc
  if startsW n "in" then adjustPin s1 n (fun ps => { ps with pull := Pull.down }) else s1

/-- The mode-specific loop of `Pins.begin_standalone` over all declared names. -/
def standalonePass (g : GPIOMap) (s : PinsSt) : PinsSt :=
  g.keys.foldl standaloneStep s

/-- Modelled from the spec: the configuration `Pins._begin_muxPins` gives a
muxed sub-pin.  `ttboard.pins.muxed.MuxedPin` is not under `src/`; per spec
sections 3-4 each half of a pair is exposed under its own name with the
direction the mode map designates for the target operating mode
(`MuxedPinInfo(name, idx, modeMap[name])` in the source). -/
def subFresh (g : GPIOMap) (m : Nat) (n : String) : PinState :=
  { mode := g.modeFor m n, pull := Pull.none, latch := false }

/-- `Pins._begin_muxPins` (`pins.py` lines 393-412): when the board uses the
mux, install both sub-pins of every muxed pair under their own names with their
designated modes for operating mode `m`. -/
def begin_muxPins (g : GPIOMap) (m : Nat) (s : PinsSt) : PinsSt :=
  if g.uses_mux then
    g.muxed_pairs.foldl
      (fun acc t => setPin (setPin acc t.2.1 (subFresh g m t.2.1)) t.2.2 (subFresh g m t.2.2)) s
  else s

/-- `Pins.project_clk_driven_by_RP2040` (`pins.py` lines 379-385): force the
clock-source pin `rp_projclk` to output or input. -/
def project_clk_driven (rpControlled : Bool) (s : PinsSt) : PinsSt :=
  ["rp_projclk"].foldl
    (fun acc n => adjustPin acc n
      (fun ps => { ps with mode := if rpControlled then PMode.OUT else PMode.IN })) s

/-- The individual actions a `begin_*` transition of `Pins` is composed of, in
the source's statement granularity. -/
inductive XStep where
  | inputsAll
  | alwaysOut
  | asicInPass
  | standalonePass
  | muxPins
  | clockSet (driven : Bool)
deriving DecidableEq, BEq, Repr

/-- Semantics of a single transition action (`ext` is the electrical level each
line would sample, `m` the target operating mode). -/
def runStep (g : GPIOMap) (ext : String → Bool) (m : Nat)
    (acc : PinsSt × List String) : XStep → PinsSt × List String
  | .inputsAll => (begin_inputs_all g acc.1, acc.2)
  | .alwaysOut => (begin_alwaysOut g acc.1, acc.2)
  | .asicInPass => asicInPass g ext acc
  | .standalonePass => (standalonePass g acc.1, acc.2)
  | .muxPins => (begin_muxPins g m acc.1, acc.2)
  | .clockSet d => (project_clk_driven d acc.1, acc.2)

/-- The action sequence of each `begin_*` method, in source statement order:
`begin_safe` (lines 321-325), `begin_asiconboard` (lines 328-347),
`begin_asic_manual_inputs` (lines 349-357), `begin_standalone`
(lines 361-377). -/
def beginSteps : Nat → List XStep
  | 0 => [.inputsAll, .alwaysOut, .muxPins]
  | 1 => [.inputsAll, .alwaysOut, .asicInPass, .muxPins, .clockSet true]
  | 2 => [.inputsAll, .alwaysOut, .muxPins, .clockSet false]
  | 3 => [.inputsAll, .alwaysOut, .standalonePass, .muxPins, .clockSet true]
  | _ => []

/-- Run a whole mode transition (`beginFunc()` of the `Pins.mode` setter): the
warning list starts empty (`unconfigured_pins = []`). -/
def applyMode (g : GPIOMap) (ext : String → Bool) (m : Nat) (s : PinsSt) :
    PinsSt × List String :=
  (beginSteps m).foldl (fun acc st => runStep g ext m acc st) (s, [])

/-- The `Pins.mode` setter (`pins.py` lines 161-176): a mode code outside the
`startupMap` is replaced by `RPMode.SAFE`; the (possibly coerced) code is
stored and its transition executed.  Returns the stored mode together with the
transition result. -/
def mode_set (g : GPIOMap) (ext : String → Bool) (s : PinsSt) (m : Nat) :
    Nat × (PinsSt × List String) :=
  let m' := if validMode m then m else RPMode.SAFE
  (m', applyMode g ext m' s)

/-- The pin registry right after `Pins.__init__` (lines 134-145), before the
first `self.mode = mode` assignment: when the board uses the mux, the
mux-control pin `hk_csb` exists and is an output (`MuxControl(..., Pin.OUT)`);
nothing else is installed yet. -/
def initPins (g : GPIOMap) : PinsSt :=
  fun n =>
    if g.uses_mux ∧ n = muxName then some { mode := PMode.OUT, pull := Pull.none, latch := false }
    else none

/-- The name `f'{basename}{i}'` of port pin `i`. -/
def portPin (basename : String) (i : Nat) : String :=
  basename ++ toString i

/-- `Pins.list_port` (`pins.py` lines 441-449): the pins named
`basename0` .. `basename7` that exist, in index order. -/
def list_port (s : PinsSt) (basename : String) : List String :=
  (List.range 8).filterMap
    (fun i => if (s (portPin basename i)).isSome then some (portPin basename i) else none)

/-- The eight names `basename0` .. `basename7`. -/
def portNames (basename : String) : List String :=
  (List.range 8).map (fun i => portPin basename i)

/-- `Pins._read_byte` (`pins.py` lines 451-458): aggregate eight single-bit
reads, bit `i` of the result being pin `i`'s value. -/
def _read_byte (s : PinsSt) (ext : String → Bool) (l : List String) : Nat :=
  (List.range 8).foldl
    (fun v i => if pinReadSt s ext (l.getD i "") then v ||| (1 <<< i) else v) 0

/-- `Pins._write_byte` (`pins.py` lines 460-466): decompose a byte into eight
single-bit writes, pin `i` receiving bit `i` of the value. -/
def _write_byte (s : PinsSt) (l : List String) (value : Nat) : PinsSt :=
  (List.range 8).foldl
    (fun acc i => pinWrite acc (l.getD i "") (value.testBit i)) s

/-- `Pins.output_byte` getter (`pins.py` lines 198-203), composition path: the
platform register fast path (`platform.IsRP2040`) is out of scope per spec
section 1. -/
def output_byte_read (s : PinsSt) (ext : String → Bool) : Nat :=
  _read_byte s ext (list_port s "out")

/-- `Pins.output_byte` setter (`pins.py` lines 205-211), composition path. -/
def output_byte_write (s : PinsSt) (b : Nat) : PinsSt :=
  _write_byte s (list_port s "out") b

/-- Pointwise effect of the contention-guard loop on the pin whose name it
examines: keep the pin when it reads high, force it to output otherwise. -/
def asicUpd (e : Bool) : Option PinState → Option PinState
  | some ps => if pinRead ps e then some ps else some { ps with mode := PMode.OUT }
  | none => none

/-- Pointwise effect of the standalone loop on the pin it examines. -/
def standUpd (n : String) (o : Option PinState) : Option PinState :=
  let o1 := if startsW n "out" then o.map (fun ps => { ps with mode := PMode.OUT }) else o
  if startsW n "in" then o1.map (fun ps => { ps with pull := Pull.down }) else o1

/-- Pointwise effect of `project_clk_driven_by_RP2040` on the clock pin. -/
def clockUpd (d : Bool) (o : Option PinState) : Option PinState :=
  o.map (fun ps => { ps with mode := if d then PMode.OUT else PMode.IN })

/-- Whether the contention-guard loop would flag the pin: an existing pin that
reads high. -/
def warnsAt (o : Option PinState) (e : Bool) : Bool :=
  match o with
  | some ps => pinRead ps e
  | none => false

/-- Closed-form per-name result of a whole mode transition: the composition of
the five transition actions, specialised to the name `n` (this is the shape the
lookup lemmas below establish for `applyMode`). -/
def pipeVal (g : GPIOMap) (ext : String → Bool) (m : Nat) (n : String)
    (o : Option PinState) : Option PinState :=
  let o1 := if n ∈ g.keys ∧ n ≠ muxName then some (freshPin g n) else o
  let o2 := if n ∈ g.always_outputs then o1.map (fun ps => { ps with mode := PMode.OUT }) else o1
  let o3 :=
    if m = RPMode.ASIC_RP_CONTROL ∧ n ∈ g.keys ∧ startsW n "in" = true then asicUpd (ext n) o2
    else if m = RPModeDEVELOPMENT.STANDALONE ∧ n ∈ g.keys then standUpd n o2
    else o2
  let o4 := if g.uses_mux = true ∧ n ∈ g.subNames then some (subFresh g m n) else o3
  if (m = RPMode.ASIC_RP_CONTROL ∨ m = RPModeDEVELOPMENT.STANDALONE) ∧ n = "rp_projclk" then
    clockUpd true o4
  else if m = RPMode.ASIC_MANUAL_INPUTS ∧ n = "rp_projclk" then clockUpd false o4
  else o4

/-- `DemoboardVersion.UNKNOWN`. -/
def DemoboardVersion.UNKNOWN : Nat := 0

/-- `DemoboardVersion.TT04`. -/
def DemoboardVersion.TT04 : Nat := 1

/-- `DemoboardVersion.TT06`. -/
def DemoboardVersion.TT06 : Nat := 2

/-- Modelled from the spec: a concrete TT06+ topology instance standing in for
the absent `gpio_map.GPIOMapTT06` (names follow the source's uses: `in0..in7`,
`out0..out7`, `uio0..uio7`, `rp_projclk`, `hk_csb`, control lines; physical
numbers follow the port layout documented in `ttboard/util/platform.py`; the
control-increment line is an always-output; the project-reset and control
lines are hardware-muxed, the reset line being an output in `ASIC_RP_CONTROL`
and `STANDALONE` and an input otherwise, per spec section 4.5 step 3). -/
def gpioMapTT06 : GPIOMap :=
  { all := [("rp_projclk", 0), ("hk_csb", 1), ("cinc", 2),
            ("sdi_nprojectrst", 3), ("sdo_cena", 4),
            ("out0", 5), ("out1", 6), ("out2", 7), ("out3", 8),
            ("in0", 9), ("in1", 10), ("in2", 11), ("in3", 12),
            ("out4", 13), ("out5", 14), ("out6", 15), ("out7", 16),
            ("in4", 17), ("in5", 18), ("in6", 19), ("in7", 20),
            ("uio0", 21), ("uio1", 22), ("uio2", 23), ("uio3", 24),
            ("uio4", 25), ("uio5", 26), ("uio6", 27), ("uio7", 28)]
    always_outputs := ["cinc"]
    default_pulls := []
    muxed_pairs := [("sdi_nprojectrst", "sdi", "nprojectrst"),
                    ("sdo_cena", "sdo", "cena")]
    pinmode_map := [(1, "nprojectrst", PMode.OUT), (3, "nprojectrst", PMode.OUT),
                    (0, "nprojectrst", PMode.IN), (2, "nprojectrst", PMode.IN),
                    (1, "cena", PMode.OUT), (3, "cena", PMode.OUT),
                    (0, "cena", PMode.IN), (2, "cena", PMode.IN),
                    (1, "sdi", PMode.OUT), (3, "sdi", PMode.OUT),
                    (0, "sdi", PMode.IN), (2, "sdi", PMode.IN),
                    (0, "sdo", PMode.IN), (1, "sdo", PMode.IN),
                    (2, "sdo", PMode.IN), (3, "sdo", PMode.IN)]
    uses_mux := true }

/-- Modelled from the spec: a concrete TT04/TT05 topology instance standing in
for the absent `gpio_map.GPIOMapTT04` (same logical names, demoboard-mux
layout; distinct physical assignment of the control lines). -/
def gpioMapTT04 : GPIOMap :=
  { gpioMapTT06 with
      all := [("rp_projclk", 0), ("hk_csb", 1), ("cinc", 29),
              ("sdi_nprojectrst", 30), ("sdo_cena", 31),
              ("out0", 5), ("out1", 6), ("out2", 7), ("out3", 8),
              ("in0", 9), ("in1", 10), ("in2", 11), ("in3", 12),
              ("out4", 13), ("out5", 14), ("out6", 15), ("out7", 16),
              ("in4", 17), ("in5", 18), ("in6", 19), ("in7", 20),
              ("uio0", 21), ("uio1", 22), ("uio2", 23), ("uio3", 24),
              ("uio4", 25), ("uio5", 26), ("uio6", 27), ("uio7", 28)] }

/-- Well-formedness of a topology, the facts the source relies on: declared
names are unique; always-output names are declared; the mux-control pin and
the clock pin are not always-outputs; the clock pin is declared and is not a
muxed sub-pin; muxed sub-pin names are disjoint from the declared plain names
(spec section 3 invariant) and are not `in`-named; `in`-named pins are not
always-outputs. -/
def GWF (g : GPIOMap) : Prop :=
  g.keys.Nodup ∧
  (∀ n ∈ g.always_outputs, n ∈ g.keys) ∧
  muxName ∉ g.always_outputs ∧
  "rp_projclk" ∈ g.keys ∧
  "rp_projclk" ∉ g.always_outputs ∧
  "rp_projclk" ∉ g.subNames ∧
  (∀ n ∈ g.subNames, n ∉ g.keys ∧ startsW n "in" = false) ∧
  (∀ n ∈ g.keys, startsW n "in" = true → n ∉ g.always_outputs)

instance (g : GPIOMap) : Decidable (GWF g) := by
  unfold GWF
  infer_instance

/-- `DemoboardDetect` class state: the recorded PCB version, the recorded
carrier presence, and the installed process-wide GPIO map
(`ttboard.pins.gpio_map.GPIOMap`). -/
structure DetectSt where
  PCB : Nat
  CarrierPresent : Option Bool
  gpioMap : Option GPIOMap
deriving DecidableEq, Repr

/-- The electrical responses the detector's probes would sample: the three
control-readback lines with the mux-select line driven low (`mux0`) and driven
high (`mux1`), and the two pull-test lines `ctrl_reset` / `ctrl_enable`. -/
structure ProbeEnv where
  mux0 : Bool × Bool × Bool
  mux1 : Bool × Bool × Bool
  crst : Bool
  cena : Bool
deriving DecidableEq, Repr

/-- `DemoboardDetect.probe_pullups` (`demoboard_detect.py` lines 76-99): both
pull-test lines low means a TT06+ board with carrier present (decisive); both
high records `UNKNOWN`/no-carrier and is non-decisive; a mixed reading is
non-decisive and records nothing. -/
def probe_pullups (env : ProbeEnv) (st : DetectSt) : DetectSt × Bool :=
  if env.crst = false ∧ env.cena = false then
    ({ st with PCB := DemoboardVersion.TT06, CarrierPresent := some true }, true)
  else if env.crst = true ∧ env.cena = true then
    ({ st with PCB := DemoboardVersion.UNKNOWN, CarrierPresent := none }, false)
  else (st, false)

/-- `DemoboardDetect.probe_tt04mux` (`demoboard_detect.py` lines 101-119):
drive the mux-select line low then high; differing three-line samples mean an
on-board mux, i.e. a TT04 board (decisive). -/
def probe_tt04mux (env : ProbeEnv) (st : DetectSt) : DetectSt × Bool :=
  if env.mux1 ≠ env.mux0 then ({ st with PCB := DemoboardVersion.TT04 }, true)
  else (st, false)

/-- `DemoboardDetect._configure_gpiomap` (`demoboard_detect.py` lines 140-152):
install the topology matching the recorded PCB version as the process-wide
GPIO map, or raise `RuntimeError('Cannot set GPIO map')` — in which case the
process-wide map is left untouched (the raise precedes any assignment). -/
def _configure_gpiomap (st : DetectSt) : Except String DetectSt :=
  if st.PCB = DemoboardVersion.TT04 then Except.ok { st with gpioMap := some gpioMapTT04 }
  else if st.PCB = DemoboardVersion.TT06 then Except.ok { st with gpioMap := some gpioMapTT06 }
  else Except.error "Cannot set GPIO map"

/-- `DemoboardDetect.probe` (`demoboard_detect.py` lines 121-133): strict
priority — the on-board-mux test, then the pull test, then the TT06+ default
recorded as a best-guess (`return False` = non-decisive); every branch installs
the GPIO map before returning. -/
def probe (env : ProbeEnv) (st : DetectSt) : Except String (DetectSt × Bool) :=
  let r1 := probe_tt04mux env st
  if r1.2 then
    match _configure_gpiomap r1.1 with
    | Except.ok st' => Except.ok (st', true)
    | Except.error e => Except.error e
  else
    let r2 := probe_pullups env r1.1
    if r2.2 then
      match _configure_gpiomap r2.1 with
      | Except.ok st' => Except.ok (st', true)
      | Except.error e => Except.error e
    else
      let st3 := { r2.1 with PCB := DemoboardVersion.TT06 }
      match _configure_gpiomap st3 with
      | Except.ok st' => Except.ok (st', false)
      | Except.error e => Except.error e

/-- `DemoboardDetect.force_detection` (`demoboard_detect.py` lines 135-138):
record the given version and install its map, propagating the
`RuntimeError` for an unsupported version. -/
def force_detection (st : DetectSt) (dbversion : Nat) : Except String DetectSt :=
  _configure_gpiomap { st with PCB := dbversion }

/-- Modelled from the spec: `ttboard.pins.mux_control.MuxControl` is not under
`src/`.  Per spec section 4.4 the controller owns the shared selector line and
the currently selected index; `selWrites` counts the selector-line drive
operations (toggles) performed so far. -/
structure MuxState where
  selection : Nat
  selWrites : Nat
deriving DecidableEq, Repr

/-- Modelled from the spec: `MuxControl.select(index)` routes the shared line
to half `index`, driving the selector only when the selection actually
changes (spec section 4.4 step 2: switch to `i` if not already there). -/
def MuxState.select (c : MuxState) (i : Nat) : MuxState :=
  if c.selection = i then c else { selection := i, selWrites := c.selWrites + 1 }

/-- Modelled from the spec: `MuxedPin.sub_pin(i).read()` — re-assert selection
`i`, read the shared physical line, and leave the controller parked at `i`
(spec section 4.4 steps 1-4: no restore of the prior selection). -/
def muxedRead (c : MuxState) (i : Nat) (line : Bool) : Bool × MuxState :=
  (line, c.select i)

/-- A fold of per-name updates, each iteration only touching the name it
visits with an idempotent pointwise action, is the pointwise action applied
once to every visited name. -/
theorem foldl_pointwise (step : PinsSt → String → PinsSt)
    (ψ : String → Option PinState → Option PinState)
    (hstep : ∀ s x n, step s x n = if n = x then ψ x (s x) else s n)
    (hidem : ∀ x o, ψ x (ψ x o) = ψ x o) :
    ∀ (l : List String) (s : PinsSt) (n : String),
      l.foldl step s n = if n ∈ l then ψ n (s n) else s n := by
  intro l
  induction l with
  | nil => intro s n; simp
  | cons x t ih =>
    intro s n
    simp only [List.foldl_cons]
    rw [ih]
    by_cases hnx : n = x
    · subst hnx
      by_cases hnt : n ∈ t
      · simp [hnt, hstep, hidem]
      · simp [hnt, hstep]
    · by_cases hnt : n ∈ t
      · simp [hnt, hnx, hstep, List.mem_cons]
      · simp [hnt, hnx, hstep, List.mem_cons]

/-- Per-name result of `begin_inputs_all`: every declared name other than the
mux-control pin gets a fresh pin; everything else is untouched. -/
theorem begin_inputs_all_lookup (g : GPIOMap) (s : PinsSt) (n : String) :
    begin_inputs_all g s n =
      if n ∈ g.keys ∧ n ≠ muxName then some (freshPin g n) else s n := by
  have h := foldl_pointwise
      (fun acc x => if x = muxName then acc else setPin acc x (freshPin g x))
      (fun x o => if x = muxName then o else some (freshPin g x))
      (by
        intro s x n
        by_cases hx : x = muxName
        · subst hx
          by_cases hnx : n = muxName <;> simp [setPin, hnx]
        · by_cases hnx : n = x <;> simp [setPin, hx, hnx])
      (by intro x o; by_cases hx : x = muxName <;> simp [hx])
      g.keys s n
  rw [begin_inputs_all, h]
  by_cases h1 : n ∈ g.keys <;> by_cases h2 : n = muxName <;> simp [h1, h2]

/-- Per-name result of `_begin_alwaysOut`: names in the always-output set are
forced to output mode in place; everything else is untouched. -/
theorem begin_alwaysOut_lookup (g : GPIOMap) (s : PinsSt) (n : String) :
    begin_alwaysOut g s n =
      if n ∈ g.always_outputs then
        (s n).map (fun ps => { ps with mode := PMode.OUT })
      else s n := by
  have h := foldl_pointwise
      (fun acc x => adjustPin acc x (fun ps => { ps with mode := PMode.OUT }))
      (fun _x o => o.map (fun ps => { ps with mode := PMode.OUT }))
      (by intro s x n; by_cases hnx : n = x <;> simp [adjustPin, hnx])
      (by intro x o; cases o <;> simp)
      g.always_outputs s n
  rw [begin_alwaysOut, h]

/-- Per-name result of the standalone mode-specific loop. -/
theorem standalonePass_lookup (g : GPIOMap) (s : PinsSt) (n : String) :
    standalonePass g s n = if n ∈ g.keys then standUpd n (s n) else s n := by
  have h := foldl_pointwise standaloneStep standUpd
      (by
        intro s x n
        by_cases hnx : n = x <;>
          by_cases ho : startsW x "out" <;> by_cases hi : startsW x "in" <;>
            simp [standaloneStep, standUpd, adjustPin, hnx, ho, hi])
      (by
        intro x o
        by_cases ho : startsW x "out" <;> by_cases hi : startsW x "in" <;>
          cases o <;> simp [standUpd, ho, hi])
      g.keys s n
  rw [standalonePass, h]

/-- Per-name result of `_begin_muxPins`: when the mux is in use, every muxed
sub-pin name carries its designated configuration; everything else is
untouched. -/
theorem begin_muxPins_lookup (g : GPIOMap) (m : Nat) (s : PinsSt) (n : String) :
    begin_muxPins g m s n =
      if g.uses_mux = true ∧ n ∈ g.subNames then some (subFresh g m n) else s n := by
  rw [begin_muxPins]
  by_cases hu : g.uses_mux
  · simp only [hu, if_pos, true_and]
    rw [GPIOMap.subNames]
    generalize g.muxed_pairs = l
    induction l generalizing s with
    | nil => simp
    | cons t r ih =>
      simp only [List.foldl_cons]
      rw [ih]
      by_cases hr : n ∈ r.flatMap (fun t => [t.2.1, t.2.2])
      · simp [hr, List.flatMap_cons, List.mem_append]
      · by_cases hb : n = t.2.2
        · subst hb
          simp [hr, setPin, List.flatMap_cons, List.mem_append]
        · by_cases ha : n = t.2.1
          · subst ha
            simp [hr, hb, setPin, List.flatMap_cons, List.mem_append]
          · simp [hr, hb, ha, setPin, List.flatMap_cons, List.mem_append]
  · simp [hu]

/-- Per-name result of `project_clk_driven_by_RP2040`. -/
theorem project_clk_lookup (d : Bool) (s : PinsSt) (n : String) :
    project_clk_driven d s n =
      if n = "rp_projclk" then clockUpd d (s n) else s n := by
  by_cases hn : n = "rp_projclk" <;>
    simp [project_clk_driven, adjustPin, clockUpd, hn]

/-- The contention-guard fold, characterised: each `in`-named visited pin gets
the pointwise `asicUpd` action, and the warning list collects exactly the
`in`-named visited pins that read high at entry. -/
theorem asicIn_fold_char (ext : String → Bool) :
    ∀ (l : List String), l.Nodup → ∀ (acc : PinsSt × List String) (n : String),
      ((l.foldl (asicInStep ext) acc).1 n =
        if n ∈ l ∧ startsW n "in" = true then asicUpd (ext n) (acc.1 n) else acc.1 n) ∧
      (l.foldl (asicInStep ext) acc).2 =
        acc.2 ++ l.filter (fun x => startsW x "in" && warnsAt (acc.1 x) (ext x)) := by
  intro l
  induction l with
  | nil => intro _ acc n; simp
  | cons x t ih =>
    intro hnd acc n
    have hxt : x ∉ t := (List.nodup_cons.mp hnd).1
    have hndt : t.Nodup := (List.nodup_cons.mp hnd).2
    set acc' := asicInStep ext acc x with hacc'
    have F1 : ∀ y, y ≠ x → acc'.1 y = acc.1 y := by
      intro y hy
      rw [hacc', asicInStep]
      by_cases hsw : startsW x "in"
      · cases hps : acc.1 x with
        | none => simp [hsw, hps]
        | some ps =>
          by_cases hr : pinRead ps (ext x) <;>
            simp [hsw, hps, hr, dieOnInputControlSwitchHigh, setPin, hy]
      · simp [hsw]
    have F2 : acc'.1 x =
        if startsW x "in" = true then asicUpd (ext x) (acc.1 x) else acc.1 x := by
      rw [hacc', asicInStep]
      by_cases hsw : startsW x "in"
      · cases hps : acc.1 x with
        | none => simp [hsw, hps, asicUpd]
        | some ps =>
          by_cases hr : pinRead ps (ext x) <;>
            simp [hsw, hps, hr, dieOnInputControlSwitchHigh, setPin, asicUpd]
      · simp [hsw]
    have F3 : acc'.2 =
        acc.2 ++ (if startsW x "in" && warnsAt (acc.1 x) (ext x) then [x] else []) := by
      rw [hacc', asicInStep]
      by_cases hsw : startsW x "in"
      · cases hps : acc.1 x with
        | none => simp [hsw, hps, warnsAt]
        | some ps =>
          by_cases hr : pinRead ps (ext x) <;>
            simp [hsw, hps, hr, dieOnInputControlSwitchHigh, warnsAt]
      · simp [hsw]
    constructor
    · simp only [List.foldl_cons]
      rw [(ih hndt acc' n).1]
      by_cases hnx : n = x
      · subst hnx
        rw [if_neg (fun hc => hxt hc.1), F2]
        by_cases hsw : startsW n "in" <;> simp [hsw, List.mem_cons]
      · rw [F1 n hnx]
        by_cases hnt : n ∈ t <;> simp [List.mem_cons, hnx, hnt]
    · simp only [List.foldl_cons]
      rw [(ih hndt acc' n).2, F3]
      have hfc : t.filter (fun y => startsW y "in" && warnsAt (acc'.1 y) (ext y)) =
          t.filter (fun y => startsW y "in" && warnsAt (acc.1 y) (ext y)) := by
        apply List.filter_congr
        intro y hy
        rw [F1 y (fun h => hxt (h ▸ hy))]
      rw [hfc, List.filter_cons]
      by_cases hx : (startsW x "in" && warnsAt (acc.1 x) (ext x)) = true <;>
        simp [hx, List.append_assoc]

/-- Per-name state result of the whole contention-guard pass. -/
theorem asicInPass_pins_lookup (g : GPIOMap) (ext : String → Bool)
    (hnd : g.keys.Nodup) (acc : PinsSt × List String) (n : String) :
    (asicInPass g ext acc).1 n =
      if n ∈ g.keys ∧ startsW n "in" = true then asicUpd (ext n) (acc.1 n)
      else acc.1 n :=
  (asicIn_fold_char ext g.keys hnd acc n).1

/-- Warning-list result of the whole contention-guard pass. -/
theorem asicInPass_warns_lookup (g : GPIOMap) (ext : String → Bool)
    (hnd : g.keys.Nodup) (acc : PinsSt × List String) :
    (asicInPass g ext acc).2 =
      acc.2 ++ g.keys.filter (fun x => startsW x "in" && warnsAt (acc.1 x) (ext x)) :=
  (asicIn_fold_char ext g.keys hnd acc "").2

/-- Mode-transition lookup, `SAFE`. -/
theorem applyMode0_lookup (g : GPIOMap) (ext : String → Bool) (s : PinsSt) (n : String) :
    (applyMode g ext RPMode.SAFE s).1 n = pipeVal g ext RPMode.SAFE n (s n) := by
  show begin_muxPins g RPMode.SAFE (begin_alwaysOut g (begin_inputs_all g s)) n = _
  simp only [begin_muxPins_lookup, begin_alwaysOut_lookup, begin_inputs_all_lookup]
  simp [pipeVal, RPMode.SAFE, RPMode.ASIC_RP_CONTROL, RPMode.ASIC_MANUAL_INPUTS,
    RPModeDEVELOPMENT.STANDALONE]

/-- Mode-transition lookup, `ASIC_RP_CONTROL`. -/
theorem applyMode1_lookup (g : GPIOMap) (ext : String → Bool) (s : PinsSt) (n : String)
    (hnd : g.keys.Nodup) :
    (applyMode g ext RPMode.ASIC_RP_CONTROL s).1 n =
      pipeVal g ext RPMode.ASIC_RP_CONTROL n (s n) := by
  show project_clk_driven true
      (begin_muxPins g RPMode.ASIC_RP_CONTROL
        (asicInPass g ext (begin_alwaysOut g (begin_inputs_all g s), [])).1) n = _
  simp only [project_clk_lookup, begin_muxPins_lookup, asicInPass_pins_lookup g ext hnd,
    begin_alwaysOut_lookup, begin_inputs_all_lookup]
  simp [pipeVal, RPMode.SAFE, RPMode.ASIC_RP_CONTROL, RPMode.ASIC_MANUAL_INPUTS,
    RPModeDEVELOPMENT.STANDALONE]

/-- Mode-transition lookup, `ASIC_MANUAL_INPUTS`. -/
theorem applyMode2_lookup (g : GPIOMap) (ext : String → Bool) (s : PinsSt) (n : String) :
    (applyMode g ext RPMode.ASIC_MANUAL_INPUTS s).1 n =
      pipeVal g ext RPMode.ASIC_MANUAL_INPUTS n (s n) := by
  show project_clk_driven false
      (begin_muxPins g RPMode.ASIC_MANUAL_INPUTS
        (begin_alwaysOut g (begin_inputs_all g s))) n = _
  simp only [project_clk_lookup, begin_muxPins_lookup, begin_alwaysOut_lookup,
    begin_inputs_all_lookup]
  simp [pipeVal, RPMode.SAFE, RPMode.ASIC_RP_CONTROL, RPMode.ASIC_MANUAL_INPUTS,
    RPModeDEVELOPMENT.STANDALONE]

/-- Mode-transition lookup, `STANDALONE`. -/
theorem applyMode3_lookup (g : GPIOMap) (ext : String → Bool) (s : PinsSt) (n : String) :
    (applyMode g ext RPModeDEVELOPMENT.STANDALONE s).1 n =
      pipeVal g ext RPModeDEVELOPMENT.STANDALONE n (s n) := by
  show project_clk_driven true
      (begin_muxPins g RPModeDEVELOPMENT.STANDALONE
        (standalonePass g (begin_alwaysOut g (begin_inputs_all g s)))) n = _
  simp only [project_clk_lookup, begin_muxPins_lookup, standalonePass_lookup,
    begin_alwaysOut_lookup, begin_inputs_all_lookup]
  simp [pipeVal, RPMode.SAFE, RPMode.ASIC_RP_CONTROL, RPMode.ASIC_MANUAL_INPUTS,
    RPModeDEVELOPMENT.STANDALONE]

/-- A valid mode code is one of the four constants. -/
theorem validMode_cases (m : Nat) (hm : validMode m = true) :
    m = RPMode.SAFE ∨ m = RPMode.ASIC_RP_CONTROL ∨ m = RPMode.ASIC_MANUAL_INPUTS ∨
    m = RPModeDEVELOPMENT.STANDALONE := by
  simp only [validMode, Bool.or_eq_true, beq_iff_eq] at hm
  tauto

/-- Per-name result of a whole valid mode transition. -/
theorem applyMode_pins_lookup (g : GPIOMap) (ext : String → Bool) (s : PinsSt)
    (m : Nat) (n : String) (hnd : g.keys.Nodup) (hm : validMode m = true) :
    (applyMode g ext m s).1 n = pipeVal g ext m n (s n) := by
  rcases validMode_cases m hm with h | h | h | h <;> subst h
  · exact applyMode0_lookup g ext s n
  · exact applyMode1_lookup g ext s n hnd
  · exact applyMode2_lookup g ext s n
  · exact applyMode3_lookup g ext s n

/-- On a declared non-mux name, a transition's per-name result does not depend
on the prior state (the baseline pass re-creates the pin from scratch). -/
theorem pipeVal_state_blind (g : GPIOMap) (ext : String → Bool) (m : Nat) (n : String)
    (hk : n ∈ g.keys ∧ n ≠ muxName) (o o' : Option PinState) :
    pipeVal g ext m n o = pipeVal g ext m n o' := by
  simp [pipeVal, hk.1, hk.2]

/-- On a muxed sub-pin name, a transition's per-name result does not depend on
the prior state (the pin is re-created with its designated mode). -/
theorem pipeVal_sub_blind (g : GPIOMap) (ext : String → Bool) (m : Nat) (n : String)
    (hu : g.uses_mux = true) (hs : n ∈ g.subNames) (o o' : Option PinState) :
    pipeVal g ext m n o = pipeVal g ext m n o' := by
  by_cases hk : n ∈ g.keys ∧ n ≠ muxName
  · exact pipeVal_state_blind g ext m n hk o o'
  · simp only [pipeVal, if_neg hk, hu, hs, true_and, if_true, if_pos]

/-- On a name that is neither a declared non-mux pin nor a muxed sub-pin, a
transition leaves the registry entry untouched. -/
theorem pipeVal_untouched (g : GPIOMap) (ext : String → Bool) (m : Nat) (n : String)
    (hg : GWF g) (hk : ¬(n ∈ g.keys ∧ n ≠ muxName))
    (hs : ¬(g.uses_mux = true ∧ n ∈ g.subNames)) (o : Option PinState) :
    pipeVal g ext m n o = o := by
  obtain ⟨hnd, halw, hmuxalw, hclk, hclkalw, hclksub, hsub, hinalw⟩ := hg
  by_cases hkk : n ∈ g.keys
  · have hnm : n = muxName := by
      by_contra hne
      exact hk ⟨hkk, hne⟩
    subst hnm
    have h2 : startsW muxName "in" = false := by decide
    have h3 : startsW muxName "out" = false := by decide
    have h4 : ¬(muxName = "rp_projclk") := by decide
    simp [pipeVal, standUpd, hmuxalw, hs, h2, h3, h4]
  · have hna : n ∉ g.always_outputs := fun ha => hkk (halw n ha)
    have hnrp : ¬(n = "rp_projclk") := fun he => hkk (he ▸ hclk)
    simp [pipeVal, hkk, hna, hs, hnrp]

/-- A transition's per-name action is idempotent. -/
theorem pipeVal_idem (g : GPIOMap) (ext : String → Bool) (m : Nat) (n : String)
    (hg : GWF g) (o : Option PinState) :
    pipeVal g ext m n (pipeVal g ext m n o) = pipeVal g ext m n o := by
  by_cases hk : n ∈ g.keys ∧ n ≠ muxName
  · exact pipeVal_state_blind g ext m n hk _ o
  · by_cases hs : g.uses_mux = true ∧ n ∈ g.subNames
    · exact pipeVal_sub_blind g ext m n hs.1 hs.2 _ o
    · exact pipeVal_untouched g ext m n hg hk hs _

/-- The warning list of an `ASIC_RP_CONTROL` transition, in terms of the pin
states right after the baseline and always-output passes. -/
theorem applyMode1_warns (g : GPIOMap) (ext : String → Bool) (s : PinsSt)
    (hnd : g.keys.Nodup) :
    (applyMode g ext RPMode.ASIC_RP_CONTROL s).2 =
      g.keys.filter (fun x => startsW x "in" &&
        warnsAt (begin_alwaysOut g (begin_inputs_all g s) x) (ext x)) := by
  show (asicInPass g ext (begin_alwaysOut g (begin_inputs_all g s), [])).2 = _
  rw [asicInPass_warns_lookup g ext hnd]
  simp

/-- Right after the baseline and always-output passes, an `in`-named declared
pin is a fresh input-mode pin. -/
theorem inpin_after_baseline (g : GPIOMap) (s : PinsSt) (x : String) (hg : GWF g)
    (hx : x ∈ g.keys) (hsw : startsW x "in" = true) :
    begin_alwaysOut g (begin_inputs_all g s) x = some (freshPin g x) ∧
    (freshPin g x).mode = PMode.IN := by
  obtain ⟨hnd, halw, hmuxalw, _, _, _, _, hinalw⟩ := hg
  have hxm : x ≠ muxName := by
    intro he
    exact absurd (he ▸ hsw) (by decide)
  have hxa : x ∉ g.always_outputs := hinalw x hx hsw
  rw [begin_alwaysOut_lookup, if_neg hxa, begin_inputs_all_lookup, if_pos ⟨hx, hxm⟩]
  exact ⟨rfl, by simp [freshPin, hxa]⟩

/-- The warning list of an `ASIC_RP_CONTROL` transition is exactly the set of
`in`-named declared pins whose line samples high. -/
theorem applyMode1_warns_ext (g : GPIOMap) (ext : String → Bool) (s : PinsSt)
    (hg : GWF g) :
    (applyMode g ext RPMode.ASIC_RP_CONTROL s).2 =
      g.keys.filter (fun x => startsW x "in" && ext x) := by
  rw [applyMode1_warns g ext s hg.1]
  apply List.filter_congr
  intro x hx
  by_cases hsw : startsW x "in" = true
  · have h := inpin_after_baseline g s x hg hx hsw
    rw [h.1]
    simp [warnsAt, pinRead, h.2]
  · simp only [Bool.not_eq_true] at hsw
    simp [hsw]

/-- Closed-form behaviour of `DemoboardDetect.probe` on each class of
electrical responses. -/
theorem probe_char (env : ProbeEnv) (st : DetectSt) :
    (env.mux1 ≠ env.mux0 →
      probe env st =
        Except.ok ({ st with PCB := DemoboardVersion.TT04,
                             gpioMap := some gpioMapTT04 }, true)) ∧
    (env.mux1 = env.mux0 → env.crst = false → env.cena = false →
      probe env st =
        Except.ok ({ st with PCB := DemoboardVersion.TT06, CarrierPresent := some true,
                             gpioMap := some gpioMapTT06 }, true)) ∧
    (env.mux1 = env.mux0 → (env.crst = true ∨ env.cena = true) →
      probe env st =
        Except.ok ({ st with PCB := DemoboardVersion.TT06,
                             CarrierPresent := if env.crst && env.cena then none
                                               else st.CarrierPresent,
                             gpioMap := some gpioMapTT06 }, false)) := by
  refine ⟨?_, ?_, ?_⟩
  · intro hm
    simp [probe, probe_tt04mux, hm, _configure_gpiomap,
      DemoboardVersion.TT04, DemoboardVersion.TT06]
  · intro hm hc he
    simp [probe, probe_tt04mux, probe_pullups, hm, hc, he, _configure_gpiomap,
      DemoboardVersion.TT04, DemoboardVersion.TT06]
  · intro hm hor
    cases hc : env.crst <;> cases he : env.cena
    · rw [hc] at hor
      rw [he] at hor
      simp at hor
    · simp [probe, probe_tt04mux, probe_pullups, hm, hc, he, _configure_gpiomap,
        DemoboardVersion.TT04, DemoboardVersion.TT06, DemoboardVersion.UNKNOWN]
    · simp [probe, probe_tt04mux, probe_pullups, hm, hc, he, _configure_gpiomap,
        DemoboardVersion.TT04, DemoboardVersion.TT06, DemoboardVersion.UNKNOWN]
    · simp [probe, probe_tt04mux, probe_pullups, hm, hc, he, _configure_gpiomap,
        DemoboardVersion.TT04, DemoboardVersion.TT06, DemoboardVersion.UNKNOWN]

/-- C1: the probe decision is a strict-priority function of the electrical
samples.  If driving the mux-select line low then high yields two differing
three-line samples, the revision A (TT04) topology is installed and the probe
stops — the result does not consult the pull-test lines and the recorded
carrier state is untouched.  Otherwise, if both pull-test lines sample low, the
revision B (TT06) topology is installed with carrier-present recorded.  In the
remaining cases (in particular both lines sampling high) revision B (TT06) is
installed as a best-guess and the probe reports itself non-decisive
(returns `False`). -/
theorem C1_detector_priority (env : ProbeEnv) (st : DetectSt) :
    (env.mux1 ≠ env.mux0 →
      probe env st =
        Except.ok ({ st with PCB := DemoboardVersion.TT04,
                             gpioMap := some gpioMapTT04 }, true)) ∧
    (env.mux1 = env.mux0 → env.crst = false → env.cena = false →
      probe env st =
        Except.ok ({ st with PCB := DemoboardVersion.TT06, CarrierPresent := some true,
                             gpioMap := some gpioMapTT06 }, true)) ∧
    (env.mux1 = env.mux0 → (env.crst = true ∨ env.cena = true) →
      probe env st =
        Except.ok ({ st with PCB := DemoboardVersion.TT06,
                             CarrierPresent := if env.crst && env.cena then none
                                               else st.CarrierPresent,
                             gpioMap := some gpioMapTT06 }, false)) :=
  probe_char env st

/-- Witness for C1 at three concrete response classes: a revision-A mux
signature, a revision-B pull signature, and a fully ambiguous response. -/
theorem C1_detector_priority_witness :
    probe ⟨(false, false, false), (true, false, false), true, true⟩ ⟨0, none, none⟩ =
      Except.ok ({ PCB := DemoboardVersion.TT04, CarrierPresent := none,
                   gpioMap := some gpioMapTT04 }, true) ∧
    probe ⟨(true, true, true), (true, true, true), false, false⟩ ⟨0, none, none⟩ =
      Except.ok ({ PCB := DemoboardVersion.TT06, CarrierPresent := some true,
                   gpioMap := some gpioMapTT06 }, true) ∧
    probe ⟨(true, true, true), (true, true, true), true, true⟩ ⟨0, none, none⟩ =
      Except.ok ({ PCB := DemoboardVersion.TT06, CarrierPresent := none,
                   gpioMap := some gpioMapTT06 }, false) := by
  refine ⟨?_, ?_, ?_⟩
  · exact (C1_detector_priority ⟨(false, false, false), (true, false, false), true, true⟩
      ⟨0, none, none⟩).1 (by decide)
  · exact (C1_detector_priority ⟨(true, true, true), (true, true, true), false, false⟩
      ⟨0, none, none⟩).2.1 rfl rfl rfl
  · have h := (C1_detector_priority ⟨(true, true, true), (true, true, true), true, true⟩
      ⟨0, none, none⟩).2.2 rfl (Or.inl rfl)
    simpa using h

/-- C9: every branch of `probe` installs the topology corresponding to the
concluded revision before returning, and a forced installation with a recorded
revision outside the two supported ones raises `RuntimeError` without
installing any topology (the raise precedes the assignment of the process-wide
map, which is therefore untouched). -/
theorem C9_topology_installed (env : ProbeEnv) (st : DetectSt) :
    (∃ st' b, probe env st = Except.ok (st', b) ∧
      ((st'.PCB = DemoboardVersion.TT04 ∧ st'.gpioMap = some gpioMapTT04) ∨
       (st'.PCB = DemoboardVersion.TT06 ∧ st'.gpioMap = some gpioMapTT06))) ∧
    (∀ v, v ≠ DemoboardVersion.TT04 → v ≠ DemoboardVersion.TT06 →
      force_detection st v = Except.error "Cannot set GPIO map") := by
  constructor
  · by_cases hm : env.mux1 = env.mux0
    · cases hc : env.crst <;> cases he : env.cena
      · refine ⟨_, _, (probe_char env st).2.1 hm hc he, Or.inr ⟨rfl, rfl⟩⟩
      · refine ⟨_, _, (probe_char env st).2.2 hm (Or.inr he), Or.inr ⟨rfl, rfl⟩⟩
      · refine ⟨_, _, (probe_char env st).2.2 hm (Or.inl hc), Or.inr ⟨rfl, rfl⟩⟩
      · refine ⟨_, _, (probe_char env st).2.2 hm (Or.inl hc), Or.inr ⟨rfl, rfl⟩⟩
    · exact ⟨_, _, (probe_char env st).1 hm, Or.inl ⟨rfl, rfl⟩⟩
  · intro v h1 h2
    simp [force_detection, _configure_gpiomap, h1, h2]

/-- Witness for C9 at a concrete environment and a concrete unsupported
forced revision. -/
theorem C9_topology_installed_witness :
    (∃ st' b,
      probe ⟨(true, true, true), (true, true, true), true, true⟩ ⟨0, none, none⟩ =
        Except.ok (st', b) ∧
      ((st'.PCB = DemoboardVersion.TT04 ∧ st'.gpioMap = some gpioMapTT04) ∨
       (st'.PCB = DemoboardVersion.TT06 ∧ st'.gpioMap = some gpioMapTT06))) ∧
    force_detection ⟨0, none, none⟩ 7 = Except.error "Cannot set GPIO map" := by
  refine ⟨(C9_topology_installed _ _).1, ?_⟩
  exact (C9_topology_installed ⟨(true, true, true), (true, true, true), true, true⟩
      ⟨0, none, none⟩).2 7 (by decide) (by decide)

/-- C5: two consecutive `read()` calls on the same muxed sub-pin index toggle
the shared selector line at most once in total; the second read leaves the
controller state (selection and toggle count) exactly as the first left it —
the prior selection is never restored. -/
theorem C5_sticky_selection (c : MuxState) (i : Nat) (e1 e2 : Bool) :
    (muxedRead (muxedRead c i e1).2 i e2).2 = (muxedRead c i e1).2 ∧
    (muxedRead (muxedRead c i e1).2 i e2).2.selWrites ≤ c.selWrites + 1 := by
  by_cases h : c.selection = i <;>
    simp [muxedRead, MuxState.select, h]

/-- C10: assigning a mode code that is not one of the four defined operating
modes raises no error: the stored mode becomes `SAFE` and the `SAFE`
transition is executed. -/
theorem C10_invalid_mode_coerced (g : GPIOMap) (ext : String → Bool) (s : PinsSt)
    (m : Nat) (hm : validMode m = false) :
    mode_set g ext s m = (RPMode.SAFE, applyMode g ext RPMode.SAFE s) := by
  simp [mode_set, hm]

/-- Witness for C10 at the concrete invalid mode code `7`. -/
theorem C10_invalid_mode_coerced_witness :
    validMode 7 = false ∧
    mode_set gpioMapTT06 (fun _ => false) (initPins gpioMapTT06) 7 =
      (RPMode.SAFE, applyMode gpioMapTT06 (fun _ => false) RPMode.SAFE
        (initPins gpioMapTT06)) :=
  ⟨by decide, C10_invalid_mode_coerced gpioMapTT06 (fun _ => false)
    (initPins gpioMapTT06) 7 (by decide)⟩

/-- Counterexample to C4: in the `ASIC_RP_CONTROL` (`ASIC_DRIVEN`) transition
`begin_asiconboard` (`pins.py` lines 328-347), the muxed-pair refresh
(`self._begin_muxPins()`, line 345) is NOT performed before the mode-specific
direction pass (the `in*` loop, lines 333-341): the mux refresh comes after
it in the statement order. -/
theorem C4_counterexample :
    ¬ (List.indexOf XStep.muxPins (beginSteps RPMode.ASIC_RP_CONTROL) <
       List.indexOf XStep.asicInPass (beginSteps RPMode.ASIC_RP_CONTROL)) := by
  decide

/-- C4 as amended: in the `ASIC_RP_CONTROL` and `STANDALONE` transitions the
mode-specific direction pass precedes the muxed-pair refresh, and only the
clock-pin forcing follows the mux refresh (the source comment "needs to be
after mux because reset now muxed" refers to the clock forcing, not to the
direction pass). -/
theorem C4_amended_order :
    List.indexOf XStep.asicInPass (beginSteps RPMode.ASIC_RP_CONTROL) <
      List.indexOf XStep.muxPins (beginSteps RPMode.ASIC_RP_CONTROL) ∧
    List.indexOf XStep.muxPins (beginSteps RPMode.ASIC_RP_CONTROL) <
      List.indexOf (XStep.clockSet true) (beginSteps RPMode.ASIC_RP_CONTROL) ∧
    List.indexOf XStep.standalonePass (beginSteps RPModeDEVELOPMENT.STANDALONE) <
      List.indexOf XStep.muxPins (beginSteps RPModeDEVELOPMENT.STANDALONE) ∧
    List.indexOf XStep.muxPins (beginSteps RPModeDEVELOPMENT.STANDALONE) <
      List.indexOf (XStep.clockSet true) (beginSteps RPModeDEVELOPMENT.STANDALONE) := by
  decide

/-- The clock-source pin's direction after a valid mode transition. -/
theorem clock_mode_after (g : GPIOMap) (ext : String → Bool) (s : PinsSt) (m : Nat)
    (hg : GWF g) (hm : validMode m = true) :
    pinModeOf (applyMode g ext m s).1 "rp_projclk" =
      some (if m = RPMode.ASIC_RP_CONTROL ∨ m = RPModeDEVELOPMENT.STANDALONE
            then PMode.OUT else PMode.IN) := by
  obtain ⟨hnd, halw, hmuxalw, hclk, hclkalw, hclksub, hsub, hinalw⟩ := hg
  rw [pinModeOf, applyMode_pins_lookup g ext s m _ hnd hm]
  have hne : ("rp_projclk" : String) ≠ muxName := by decide
  have hsw : startsW "rp_projclk" "in" = false := by decide
  have hswo : startsW "rp_projclk" "out" = false := by decide
  rcases validMode_cases m hm with h | h | h | h <;> subst h <;>
    simp [pipeVal, hclk, hne, hclkalw, hclksub, clockUpd, freshPin, standUpd, hsw, hswo,
      RPMode.SAFE, RPMode.ASIC_RP_CONTROL, RPMode.ASIC_MANUAL_INPUTS,
      RPModeDEVELOPMENT.STANDALONE]

/-- C8: after every valid mode transition, the clock-source pin `rp_projclk`
is in output mode when the target mode is `ASIC_RP_CONTROL` (`ASIC_DRIVEN`) or
`STANDALONE`, and in input mode when the target mode is `ASIC_MANUAL_INPUTS`
or `SAFE` (in `SAFE` it is an input because the baseline pass creates it as an
input and nothing later touches it). -/
theorem C8_clock_direction (g : GPIOMap) (ext : String → Bool) (s : PinsSt) (m : Nat)
    (hg : GWF g) (hm : validMode m = true) :
    pinModeOf (applyMode g ext m s).1 "rp_projclk" =
      some (if m = RPMode.ASIC_RP_CONTROL ∨ m = RPModeDEVELOPMENT.STANDALONE
            then PMode.OUT else PMode.IN) :=
  clock_mode_after g ext s m hg hm

/-- Witness for C8: concrete transitions into `ASIC_RP_CONTROL` and into
`SAFE` on the modelled TT06 topology. -/
theorem C8_clock_direction_witness :
    pinModeOf (applyMode gpioMapTT06 (fun _ => false) RPMode.ASIC_RP_CONTROL
        (initPins gpioMapTT06)).1 "rp_projclk" = some PMode.OUT ∧
    pinModeOf (applyMode gpioMapTT06 (fun _ => false) RPMode.SAFE
        (initPins gpioMapTT06)).1 "rp_projclk" = some PMode.IN := by
  constructor
  · have h := C8_clock_direction gpioMapTT06 (fun _ => false) (initPins gpioMapTT06)
      RPMode.ASIC_RP_CONTROL (by decide) (by decide)
    simpa using h
  · have h := C8_clock_direction gpioMapTT06 (fun _ => false) (initPins gpioMapTT06)
      RPMode.SAFE (by decide) (by decide)
    simpa using h

/-- Counterexample to C3: the first action of every transition is
`begin_inputs_all`, but it does not configure every declared pin as an input
with no pull.  On the modelled topology, right after the first action of a
`SAFE` transition from the freshly-constructed state, the declared pin `cinc`
(an always-output) is in output mode, and the declared mux-control pin
`hk_csb` is still the output it was made at construction time (the loop skips
it). -/
theorem C3_counterexample :
    (beginSteps RPMode.SAFE).head? = some XStep.inputsAll ∧
    "hk_csb" ∈ gpioMapTT06.keys ∧ "cinc" ∈ gpioMapTT06.keys ∧
    (runStep gpioMapTT06 (fun _ => false) RPMode.SAFE (initPins gpioMapTT06, [])
        XStep.inputsAll).1 "hk_csb" =
      some { mode := PMode.OUT, pull := Pull.none, latch := false } ∧
    (runStep gpioMapTT06 (fun _ => false) RPMode.SAFE (initPins gpioMapTT06, [])
        XStep.inputsAll).1 "cinc" =
      some { mode := PMode.OUT, pull := Pull.none, latch := false } := by
  decide

/-- C3 as amended: the first action of every transition configures every
declared pin except the mux-control pin, giving it input direction unless it
is in the topology's always-output set (in which case it is created as an
output directly), and its topology default pull (not necessarily no pull);
the mux-control pin is skipped and keeps its construction-time output
configuration; all other names are untouched. -/
theorem C3_first_step_baseline (g : GPIOMap) (ext : String → Bool) (m : Nat)
    (s : PinsSt) (w : List String) (hm : validMode m = true) :
    (beginSteps m).head? = some XStep.inputsAll ∧
    ∀ n, (runStep g ext m (s, w) XStep.inputsAll).1 n =
      if n ∈ g.keys ∧ n ≠ muxName then
        some { mode := if n ∈ g.always_outputs then PMode.OUT else PMode.IN
               pull := g.default_pull n
               latch := false }
      else s n := by
  constructor
  · rcases validMode_cases m hm with h | h | h | h <;> subst h <;> rfl
  · intro n
    show begin_inputs_all g s n = _
    rw [begin_inputs_all_lookup]
    simp [freshPin]

/-- Witness for C3's amended statement: first action of a `SAFE` transition on
the modelled topology, looked up at the declared pin `in0`. -/
theorem C3_first_step_baseline_witness :
    (beginSteps RPMode.SAFE).head? = some XStep.inputsAll ∧
    (runStep gpioMapTT06 (fun _ => false) RPMode.SAFE (initPins gpioMapTT06, [])
        XStep.inputsAll).1 "in0" =
      some { mode := PMode.IN, pull := Pull.none, latch := false } := by
  have h := C3_first_step_baseline gpioMapTT06 (fun _ => false) RPMode.SAFE
    (initPins gpioMapTT06) [] (by decide)
  refine ⟨h.1, ?_⟩
  have h2 := h.2 "in0"
  rw [h2]
  decide

/-- C7: setting the same valid mode twice in succession leaves every pin in a
configuration identical to setting it once (given unchanged electrical
inputs `ext`). -/
theorem C7_mode_idempotent (g : GPIOMap) (ext : String → Bool) (s : PinsSt) (m : Nat)
    (hg : GWF g) (hm : validMode m = true) (n : String) :
    (applyMode g ext m (applyMode g ext m s).1).1 n = (applyMode g ext m s).1 n := by
  have key : ∀ (s' : PinsSt) (n' : String),
      (applyMode g ext m s').1 n' = pipeVal g ext m n' (s' n') :=
    fun s' n' => applyMode_pins_lookup g ext s' m n' hg.1 hm
  rw [key, key]
  exact pipeVal_idem g ext m n hg (s n)

/-- Witness for C7: a double `ASIC_RP_CONTROL` transition on the modelled
topology, compared at the pin `in0`. -/
theorem C7_mode_idempotent_witness :
    (applyMode gpioMapTT06 (fun _ => false) RPMode.ASIC_RP_CONTROL
        (applyMode gpioMapTT06 (fun _ => false) RPMode.ASIC_RP_CONTROL
          (initPins gpioMapTT06)).1).1 "in0" =
    (applyMode gpioMapTT06 (fun _ => false) RPMode.ASIC_RP_CONTROL
        (initPins gpioMapTT06)).1 "in0" :=
  C7_mode_idempotent gpioMapTT06 (fun _ => false) (initPins gpioMapTT06)
    RPMode.ASIC_RP_CONTROL (by decide) (by decide) "in0"

/-- C2: in every transition into `ASIC_RP_CONTROL` (`ASIC_DRIVEN`), each
`in`-named declared pin that samples high as an input is left in input mode
and appears by name in the contention-warning list; every other `in`-named
declared pin becomes an output and is not warned about; and the transition as
a whole still completes — in particular the clock-pin forcing that follows the
contention pass still takes effect. -/
theorem C2_contention_guard (g : GPIOMap) (ext : String → Bool) (s : PinsSt)
    (hg : GWF g) :
    (∀ n ∈ g.keys, startsW n "in" = true →
      (ext n = true →
        pinModeOf (applyMode g ext RPMode.ASIC_RP_CONTROL s).1 n = some PMode.IN ∧
        n ∈ (applyMode g ext RPMode.ASIC_RP_CONTROL s).2) ∧
      (ext n = false →
        pinModeOf (applyMode g ext RPMode.ASIC_RP_CONTROL s).1 n = some PMode.OUT ∧
        n ∉ (applyMode g ext RPMode.ASIC_RP_CONTROL s).2)) ∧
    pinModeOf (applyMode g ext RPMode.ASIC_RP_CONTROL s).1 "rp_projclk" =
      some PMode.OUT := by
  have hG := hg
  obtain ⟨hnd, halw, hmuxalw, hclk, hclkalw, hclksub, hsub, hinalw⟩ := hg
  have key : ∀ n', (applyMode g ext RPMode.ASIC_RP_CONTROL s).1 n' =
      pipeVal g ext RPMode.ASIC_RP_CONTROL n' (s n') :=
    fun n' => applyMode_pins_lookup g ext s _ n' hnd (by decide)
  constructor
  · intro n hn hsw
    have hnm : n ≠ muxName := fun he => absurd (he ▸ hsw) (by decide)
    have hna : n ∉ g.always_outputs := hinalw n hn hsw
    have hnsub : n ∉ g.subNames := fun hsn => (hsub n hsn).1 hn
    have hnrp : n ≠ "rp_projclk" := fun he => absurd (he ▸ hsw) (by decide)
    constructor
    · intro hext
      constructor
      · rw [pinModeOf, key n]
        simp [pipeVal, hn, hnm, hna, hnsub, hnrp, hsw, hext, asicUpd, pinRead, freshPin,
          RPMode.SAFE, RPMode.ASIC_RP_CONTROL, RPMode.ASIC_MANUAL_INPUTS,
          RPModeDEVELOPMENT.STANDALONE]
      · rw [applyMode1_warns_ext g ext s hG]
        simp [List.mem_filter, hn, hsw, hext]
    · intro hext
      constructor
      · rw [pinModeOf, key n]
        simp [pipeVal, hn, hnm, hna, hnsub, hnrp, hsw, hext, asicUpd, pinRead, freshPin,
          RPMode.SAFE, RPMode.ASIC_RP_CONTROL, RPMode.ASIC_MANUAL_INPUTS,
          RPModeDEVELOPMENT.STANDALONE]
      · rw [applyMode1_warns_ext g ext s hG]
        simp [List.mem_filter, hsw, hext]
  · have h := clock_mode_after g ext s RPMode.ASIC_RP_CONTROL hG (by decide)
    simpa using h

/-- Witness for C2: on the modelled topology with exactly the line `in3`
sampling high, `in3` stays an input and is warned about, while `in0` becomes
an output and is not warned about. -/
theorem C2_contention_guard_witness :
    (pinModeOf (applyMode gpioMapTT06 (fun n => n == "in3") RPMode.ASIC_RP_CONTROL
        (initPins gpioMapTT06)).1 "in3" = some PMode.IN ∧
      "in3" ∈ (applyMode gpioMapTT06 (fun n => n == "in3") RPMode.ASIC_RP_CONTROL
        (initPins gpioMapTT06)).2) ∧
    (pinModeOf (applyMode gpioMapTT06 (fun n => n == "in3") RPMode.ASIC_RP_CONTROL
        (initPins gpioMapTT06)).1 "in0" = some PMode.OUT ∧
      "in0" ∉ (applyMode gpioMapTT06 (fun n => n == "in3") RPMode.ASIC_RP_CONTROL
        (initPins gpioMapTT06)).2) := by
  have h := C2_contention_guard gpioMapTT06 (fun n => n == "in3")
    (initPins gpioMapTT06) (by decide)
  exact ⟨(h.1 "in3" (by decide) (by decide)).1 (by decide),
         (h.1 "in0" (by decide) (by decide)).2 (by decide)⟩

/-- Recomposing a byte bit by bit with or-shifts gives the byte back. -/
theorem bit_recomp : ∀ b, b < 256 →
    (List.range 8).foldl (fun v i => if b.testBit i then v ||| (1 <<< i) else v) 0 = b := by
  decide

/-- Bit `i` of the or-shift recomposition of eight bits is the `i`-th bit. -/
theorem build_testBit : ∀ (g0 g1 g2 g3 g4 g5 g6 g7 : Bool) (i : Nat), i < 8 →
    Nat.testBit ((List.range 8).foldl
      (fun v k => if [g0, g1, g2, g3, g4, g5, g6, g7].getD k false
                  then v ||| (1 <<< k) else v) 0) i =
    [g0, g1, g2, g3, g4, g5, g6, g7].getD i false := by
  decide

/-- When all eight `out` pins exist, `list_port` enumerates exactly the eight
port names in index order. -/
theorem list_port_out_eq (s : PinsSt)
    (hsome : ∀ i, i < 8 → (s (portPin "out" i)).isSome = true) :
    list_port s "out" = portNames "out" := by
  have h0 := hsome 0 (by norm_num)
  have h1 := hsome 1 (by norm_num)
  have h2 := hsome 2 (by norm_num)
  have h3 := hsome 3 (by norm_num)
  have h4 := hsome 4 (by norm_num)
  have h5 := hsome 5 (by norm_num)
  have h6 := hsome 6 (by norm_num)
  have h7 := hsome 7 (by norm_num)
  simp [list_port, portNames, List.range_succ, h0, h1, h2, h3, h4, h5, h6, h7]

/-- Effect of `_write_byte` on each port pin: its latch receives the matching
bit of the byte; mode and pull are untouched. -/
theorem write_byte_at (s : PinsSt) (b : Nat) :
    ∀ i, i < 8 → _write_byte s (portNames "out") b (portPin "out" i) =
      (s (portPin "out" i)).map (fun ps => { ps with latch := b.testBit i }) := by
  have e0 : (portNames "out").getD 0 "" = portPin "out" 0 := rfl
  have e1 : (portNames "out").getD 1 "" = portPin "out" 1 := rfl
  have e2 : (portNames "out").getD 2 "" = portPin "out" 2 := rfl
  have e3 : (portNames "out").getD 3 "" = portPin "out" 3 := rfl
  have e4 : (portNames "out").getD 4 "" = portPin "out" 4 := rfl
  have e5 : (portNames "out").getD 5 "" = portPin "out" 5 := rfl
  have e6 : (portNames "out").getD 6 "" = portPin "out" 6 := rfl
  have e7 : (portNames "out").getD 7 "" = portPin "out" 7 := rfl
  intro i hi
  interval_cases i <;>
    (simp only [_write_byte, List.range_succ, List.range_zero, List.foldl_nil,
      List.foldl_append, List.foldl_cons, e0, e1, e2, e3, e4, e5, e6, e7]
     simp +decide [pinWrite])

/-- C6: while the eight `out`-named pins are host-writable (output mode),
writing byte `b` through `output_byte` and reading `output_byte` back returns
`b` for every `b` in 0..255; the aggregate is exactly the composition of eight
single-bit operations, with byte bit `i` corresponding to port pin `i` both on
the write side (pin `i`'s latch receives bit `i`) and on the read side (bit
`i` of the aggregate is pin `i`'s single-bit read). -/
theorem C6_output_byte_roundtrip (s : PinsSt) (ext : String → Bool) (b : Nat)
    (hb : b < 256)
    (hmodes : ∀ i, i < 8 → pinModeOf s (portPin "out" i) = some PMode.OUT) :
    list_port s "out" = portNames "out" ∧
    output_byte_read (output_byte_write s b) ext = b ∧
    (∀ i, i < 8 →
      pinReadSt (output_byte_write s b) ext (portPin "out" i) = b.testBit i) ∧
    (∀ i, i < 8 →
      Nat.testBit (output_byte_read s ext) i = pinReadSt s ext (portPin "out" i)) := by
  have hsome : ∀ i, i < 8 → (s (portPin "out" i)).isSome = true := by
    intro i hi
    have h := hmodes i hi
    rw [pinModeOf] at h
    cases hq : s (portPin "out" i) <;> rw [hq] at h <;> simp_all
  have hps : ∀ i, i < 8 → ∃ ps, s (portPin "out" i) = some ps ∧ ps.mode = PMode.OUT := by
    intro i hi
    have h := hmodes i hi
    rw [pinModeOf] at h
    cases hq : s (portPin "out" i) with
    | none => rw [hq] at h; simp at h
    | some ps =>
      rw [hq] at h
      simp at h
      exact ⟨ps, rfl, h⟩
  have hlp : list_port s "out" = portNames "out" := list_port_out_eq s hsome
  have hbit : ∀ i, i < 8 →
      pinReadSt (output_byte_write s b) ext (portPin "out" i) = b.testBit i := by
    intro i hi
    obtain ⟨ps, hq, hpm⟩ := hps i hi
    have hw := write_byte_at s b i hi
    rw [output_byte_write, hlp]
    simp [pinReadSt, hw, hq, pinRead, hpm]
  have hsome' : ∀ i, i < 8 →
      ((output_byte_write s b) (portPin "out" i)).isSome = true := by
    intro i hi
    rw [output_byte_write, hlp, write_byte_at s b i hi]
    have h := hsome i hi
    cases hq : s (portPin "out" i) <;> rw [hq] at h <;> simp_all
  have hlp' : list_port (output_byte_write s b) "out" = portNames "out" :=
    list_port_out_eq _ hsome'
  refine ⟨hlp, ?_, hbit, ?_⟩
  · rw [output_byte_read, hlp']
    have e0 : (portNames "out").getD 0 "" = portPin "out" 0 := rfl
    have e1 : (portNames "out").getD 1 "" = portPin "out" 1 := rfl
    have e2 : (portNames "out").getD 2 "" = portPin "out" 2 := rfl
    have e3 : (portNames "out").getD 3 "" = portPin "out" 3 := rfl
    have e4 : (portNames "out").getD 4 "" = portPin "out" 4 := rfl
    have e5 : (portNames "out").getD 5 "" = portPin "out" 5 := rfl
    have e6 : (portNames "out").getD 6 "" = portPin "out" 6 := rfl
    have e7 : (portNames "out").getD 7 "" = portPin "out" 7 := rfl
    have g0 := hbit 0 (by norm_num)
    have g1 := hbit 1 (by norm_num)
    have g2 := hbit 2 (by norm_num)
    have g3 := hbit 3 (by norm_num)
    have g4 := hbit 4 (by norm_num)
    have g5 := hbit 5 (by norm_num)
    have g6 := hbit 6 (by norm_num)
    have g7 := hbit 7 (by norm_num)
    have hrec := bit_recomp b hb
    rw [_read_byte]
    simp only [List.range_succ, List.range_zero, List.foldl_nil, List.foldl_append,
      List.foldl_cons, e0, e1, e2, e3, e4, e5, e6, e7, g0, g1, g2, g3, g4, g5, g6, g7]
    simp only [List.range_succ, List.range_zero, List.foldl_nil, List.foldl_append,
      List.foldl_cons] at hrec
    exact hrec
  · intro i hi
    rw [output_byte_read, hlp, _read_byte]
    have hfe : (List.range 8).foldl
        (fun v k => if pinReadSt s ext ((portNames "out").getD k "")
                    then v ||| (1 <<< k) else v) 0 =
        (List.range 8).foldl
        (fun v k => if [pinReadSt s ext (portPin "out" 0), pinReadSt s ext (portPin "out" 1),
                        pinReadSt s ext (portPin "out" 2), pinReadSt s ext (portPin "out" 3),
                        pinReadSt s ext (portPin "out" 4), pinReadSt s ext (portPin "out" 5),
                        pinReadSt s ext (portPin "out" 6),
                        pinReadSt s ext (portPin "out" 7)].getD k false
                    then v ||| (1 <<< k) else v) 0 := by
      apply List.foldl_ext
      intro a k hk
      rw [List.mem_range] at hk
      interval_cases k <;> rfl
    rw [hfe, build_testBit _ _ _ _ _ _ _ _ i hi]
    interval_cases i <;> rfl

/-- Witness for C6: the byte `0xA5` written to a registry whose eight `out`
pins are outputs. -/
theorem C6_output_byte_roundtrip_witness :
    output_byte_read
      (output_byte_write
        (fun n => if startsW n "out" = true
                  then some { mode := PMode.OUT, pull := Pull.none, latch := false }
                  else none) 165)
      (fun _ => false) = 165 :=
  (C6_output_byte_roundtrip
    (fun n => if startsW n "out" = true
              then some { mode := PMode.OUT, pull := Pull.none, latch := false }
              else none)
    (fun _ => false) 165 (by norm_num) (by decide)).2.1

end TT
